import Mathlib

/-!
Verification development for the Kiln datamodel core
(libs/core/kiln_ai/datamodel/__init__.py).

The Python datamodel is shallowly embedded: pydantic models become Lean
structures, `@model_validator` methods become functions returning
`Except KilnError Unit`, Python floats (only ever carrying rating values)
become rationals, and Python dicts become association lists.  The
persistence machinery (`basemodel.py`) and the JSON-schema helper module
(`json_schema.py`) are imported by the datamodel but are not part of the
provided sources; the definitions embedding them are modelled from the
specification and say so in their doc comments.
-/

namespace Kiln

/-- JSON values, the result of parsing the JSON text held in entity string
fields (the Python source parses such text with the standard json module). -/
inductive Json where
  | null : Json
  | bool (b : Bool) : Json
  | num (q : ℚ) : Json
  | str (s : String) : Json
  | arr (elems : List Json) : Json
  | obj (fields : List (String × Json)) : Json

/-- JSON whitespace characters. -/
def isJsonWs (c : Char) : Bool :=
  c = ' ' || c = '\n' || c = '\t' || c = '\r'

/-- Drop leading JSON whitespace. -/
def skipWs : List Char → List Char
  | [] => []
  | c :: cs => if isJsonWs c then skipWs cs else c :: cs

/-- Value of a hexadecimal digit, if the character is one. -/
def hexVal (c : Char) : Option Nat :=
  if c.isDigit then some (c.toNat - 48)
  else if 'a' ≤ c ∧ c ≤ 'f' then some (c.toNat - 87)
  else if 'A' ≤ c ∧ c ≤ 'F' then some (c.toNat - 55)
  else none

/-- Parse the body of a JSON string (the opening quote already consumed):
returns the decoded characters and the input remaining after the closing
quote.  Handles the standard single-character escapes and \uXXXX. -/
def parseStringBody : List Char → Option (List Char × List Char)
  | [] => none
  | '\"' :: rest => some ([], rest)
  | '\\' :: esc =>
    match esc with
    | '\"' :: rest => (parseStringBody rest).map (fun p => ('\"' :: p.1, p.2))
    | '\\' :: rest => (parseStringBody rest).map (fun p => ('\\' :: p.1, p.2))
    | '/' :: rest => (parseStringBody rest).map (fun p => ('/' :: p.1, p.2))
    | 'b' :: rest => (parseStringBody rest).map (fun p => ('\x08' :: p.1, p.2))
    | 'f' :: rest => (parseStringBody rest).map (fun p => ('\x0c' :: p.1, p.2))
    | 'n' :: rest => (parseStringBody rest).map (fun p => ('\n' :: p.1, p.2))
    | 'r' :: rest => (parseStringBody rest).map (fun p => ('\r' :: p.1, p.2))
    | 't' :: rest => (parseStringBody rest).map (fun p => ('\t' :: p.1, p.2))
    | 'u' :: h1 :: h2 :: h3 :: h4 :: rest =>
      match hexVal h1, hexVal h2, hexVal h3, hexVal h4 with
      | some a, some b, some c, some d =>
        (parseStringBody rest).map
          (fun p => (Char.ofNat (((a * 16 + b) * 16 + c) * 16 + d) :: p.1, p.2))
      | _, _, _, _ => none
    | _ => none
  | c :: rest =>
    if c.toNat < 32 then none
    else (parseStringBody rest).map (fun p => (c :: p.1, p.2))

/-- Take the maximal run of decimal digits from the front of the input. -/
def takeDigits : List Char → List Char × List Char
  | [] => ([], [])
  | c :: cs =>
    if c.isDigit then
      let p := takeDigits cs
      (c :: p.1, p.2)
    else ([], c :: cs)

/-- Numeric value of a digit run. -/
def digitsToNat (ds : List Char) : Nat :=
  ds.foldl (fun acc c => 10 * acc + (c.toNat - 48)) 0

/-- Parse the optional fraction part of a JSON number (after the integer
part): returns the fraction digits (empty when absent) and the rest. -/
def parseFrac : List Char → Option (List Char × List Char)
  | '.' :: rest =>
    let p := takeDigits rest
    if p.1.isEmpty then none else some (p.1, p.2)
  | cs => some (([] : List Char), cs)

/-- Parse the optional exponent part of a JSON number. -/
def parseExp : List Char → Option (Int × List Char)
  | [] => some ((0 : Int), [])
  | c :: rest =>
    if c = 'e' ∨ c = 'E' then
      let sr : Int × List Char :=
        match rest with
        | '+' :: r => ((1 : Int), r)
        | '-' :: r => ((-1 : Int), r)
        | r => ((1 : Int), r)
      let p := takeDigits sr.2
      if p.1.isEmpty then none else some (sr.1 * (digitsToNat p.1 : Int), p.2)
    else some ((0 : Int), c :: rest)

/-- Parse a JSON number per the JSON grammar: optional minus sign, integer
part without superfluous leading zeros, optional fraction and exponent.
The value is assembled as an exact rational from integer parts. -/
def parseNumber (cs : List Char) : Option (Json × List Char) :=
  let signRest : Bool × List Char :=
    match cs with
    | '-' :: rest => (true, rest)
    | _ => (false, cs)
  let ipRest := takeDigits signRest.2
  if ipRest.1.isEmpty then none
  else if 1 < ipRest.1.length ∧ ipRest.1.headD '0' = '0' then none
  else
    match parseFrac ipRest.2 with
    | none => none
    | some (fd, cs3) =>
      match parseExp cs3 with
      | none => none
      | some (ex, cs4) =>
        let baseNum : Int :=
          ((digitsToNat ipRest.1 * 10 ^ fd.length + digitsToNat fd : Nat) : Int)
        let num : Int := if signRest.1 then -baseNum else baseNum
        let q : ℚ :=
          if 0 ≤ ex then mkRat (num * (10 : Int) ^ ex.toNat) ((10 : Nat) ^ fd.length)
          else mkRat num ((10 : Nat) ^ fd.length * (10 : Nat) ^ (-ex).toNat)
        some (Json.num q, cs4)

mutual

/-- Parse one JSON value (fuel-bounded recursion; the fuel only bounds the
nesting depth, which is at most the input length). -/
def parseValue : Nat → List Char → Option (Json × List Char)
  | 0, _ => none
  | fuel + 1, cs =>
    match skipWs cs with
    | 'n' :: 'u' :: 'l' :: 'l' :: rest => some (Json.null, rest)
    | 't' :: 'r' :: 'u' :: 'e' :: rest => some (Json.bool true, rest)
    | 'f' :: 'a' :: 'l' :: 's' :: 'e' :: rest => some (Json.bool false, rest)
    | '\"' :: rest =>
      match parseStringBody rest with
      | none => none
      | some (body, rest2) => some (Json.str (String.mk body), rest2)
    | '[' :: rest =>
      match skipWs rest with
      | ']' :: rest2 => some (Json.arr [], rest2)
      | cs2 =>
        match parseElems fuel cs2 with
        | none => none
        | some (vs, rest2) => some (Json.arr vs, rest2)
    | '\x7b' :: rest =>
      match skipWs rest with
      | '\x7d' :: rest2 => some (Json.obj [], rest2)
      | cs2 =>
        match parseMembers fuel cs2 with
        | none => none
        | some (ms, rest2) => some (Json.obj ms, rest2)
    | c :: rest => if c = '-' ∨ c.isDigit then parseNumber (c :: rest) else none
    | [] => none

/-- Parse a non-empty comma-separated list of array elements, up to and
including the closing bracket. -/
def parseElems : Nat → List Char → Option (List Json × List Char)
  | 0, _ => none
  | fuel + 1, cs =>
    match parseValue fuel cs with
    | none => none
    | some (v, rest) =>
      match skipWs rest with
      | ',' :: rest2 =>
        match parseElems fuel rest2 with
        | none => none
        | some (vs, rest3) => some (v :: vs, rest3)
      | ']' :: rest2 => some ([v], rest2)
      | _ => none

/-- Parse a non-empty comma-separated list of object members, up to and
including the closing brace. -/
def parseMembers : Nat → List Char → Option (List (String × Json) × List Char)
  | 0, _ => none
  | fuel + 1, cs =>
    match skipWs cs with
    | '\"' :: rest =>
      match parseStringBody rest with
      | none => none
      | some (key, rest1) =>
        match skipWs rest1 with
        | ':' :: rest2 =>
          match parseValue fuel rest2 with
          | none => none
          | some (v, rest3) =>
            match skipWs rest3 with
            | ',' :: rest4 =>
              match parseMembers fuel rest4 with
              | none => none
              | some (ms, rest5) => some ((String.mk key, v) :: ms, rest5)
            | '\x7d' :: rest4 => some ([(String.mk key, v)], rest4)
            | _ => none
        | _ => none
    | _ => none

end

/-- The embedding of Python json.loads applied to a text field: parse one
complete JSON document; anything but whitespace after it is an error. -/
def parseJson (s : String) : Option Json :=
  match parseValue (s.length + 1) s.data with
  | some (v, rest) => if (skipWs rest).isEmpty then some v else none
  | none => none

/-- The error kinds of the spec's error taxonomy.  Each raise site of the
source is mapped to the kind the spec assigns to it; structured payloads
stand in for the interpolated parts of the Python error messages. -/
inductive KilnError where
  | formatError (msg : String)
  | schemaCompileError (msg : String)
  | schemaMismatchError (msg : String)
  | referenceError (key : String)
  | missingKeysError (keys : List String)
  | emptyValueError (key : String)
  | constraintError (msg : String)
  | notFoundError (path : String)
  | pathMissingError
deriving DecidableEq, Repr

/-- Association lookup in a JSON object (Python dict access). -/
def getField : List (String × Json) → String → Option Json
  | [], _ => none
  | (k, v) :: rest, key => if k = key then some v else getField rest key

/-- Does a JSON value satisfy a schema "type" keyword?  "integer" accepts a
number with no fractional part, as JSON Schema does. -/
def typeMatches (t : String) (j : Json) : Bool :=
  match t with
  | "object" => match j with | Json.obj _ => true | _ => false
  | "array" => match j with | Json.arr _ => true | _ => false
  | "string" => match j with | Json.str _ => true | _ => false
  | "number" => match j with | Json.num _ => true | _ => false
  | "integer" => match j with | Json.num q => q.isInt | _ => false
  | "boolean" => match j with | Json.bool _ => true | _ => false
  | "null" => match j with | Json.null => true | _ => false
  | _ => false

/-- Modelled from the spec: the structural JSON-Schema check performed by
the missing json_schema.py module (which delegates to the jsonschema
library).  Supports the keywords the datamodel's schemas use: "type",
"required", "properties" and "items"; other keywords are ignored, as the
library ignores unknown keywords.  The fuel bounds schema nesting depth. -/
def checkSchema : Nat → Json → Json → Bool
  | 0, _, _ => false
  | fuel + 1, Json.obj sch, j =>
    (match getField sch "type" with
     | some (Json.str t) => typeMatches t j
     | _ => true) &&
    (match getField sch "required", j with
     | some (Json.arr reqs), Json.obj fields =>
       reqs.all (fun r =>
         match r with
         | Json.str k => (getField fields k).isSome
         | _ => true)
     | _, _ => true) &&
    (match getField sch "properties", j with
     | some (Json.obj props), Json.obj fields =>
       props.all (fun kv =>
         match getField fields kv.1 with
         | some v => checkSchema fuel kv.2 v
         | none => true)
     | _, _ => true) &&
    (match getField sch "items", j with
     | some itemSch, Json.arr elems => elems.all (fun v => checkSchema fuel itemSch v)
     | _, _ => true)
  | _ + 1, _, _ => true

/-- Depth budget for `checkSchema`; ample for any schema the datamodel
stores (the check recurses only into nested subschemas). -/
def schemaFuel : Nat := 1000

/-- Modelled from the spec: compiling a schema-as-text field
(json_schema.py's schema_from_json_str is not among the provided sources).
Per the spec the text must parse as JSON and the root must be an object. -/
def schema_from_json_str (s : String) : Except KilnError Json :=
  match parseJson s with
  | none => Except.error (KilnError.schemaCompileError "schema is not valid JSON")
  | some (Json.obj fields) => Except.ok (Json.obj fields)
  | some _ => Except.error (KilnError.schemaCompileError "schema root must be an object")

/-- Modelled from the spec: json_schema.py's validate_schema, which the
datamodel calls with an already-parsed instance and the schema text. -/
def validate_schema (inst : Json) (schemaText : String) : Except KilnError Unit :=
  match schema_from_json_str schemaText with
  | Except.error e => Except.error e
  | Except.ok sch =>
    if checkSchema schemaFuel sch inst then Except.ok ()
    else Except.error (KilnError.schemaMismatchError "instance does not conform to schema")

/-- Sequence two validation steps: the first error wins (pydantic after
validators run in declaration order and the first raise aborts). -/
def exSeq (a b : Except KilnError Unit) : Except KilnError Unit :=
  match a with
  | Except.error e => Except.error e
  | Except.ok _ => b

/-- Priority, an IntEnum with values p0-p3. -/
inductive Priority where
  | p0
  | p1
  | p2
  | p3
deriving DecidableEq, Repr

/-- TaskDeterminism enum. -/
inductive TaskDeterminism where
  | deterministic
  | semantic_match
  | flexible
deriving DecidableEq, Repr

/-- DataSourceType enum: the source of a piece of data. -/
inductive DataSourceType where
  | human
  | synthetic
deriving DecidableEq, Repr

/-- TaskOutputRatingType enum. -/
inductive TaskOutputRatingType where
  | five_star
  | custom
deriving DecidableEq, Repr

/-- TaskOutputRating, a KilnBaseModel.  Python floats are embedded as exact
rationals (every five-star value is exactly representable); Python dicts as
association lists.  `created_at` is the serialized timestamp text. -/
structure TaskOutputRating where
  id : String
  created_at : String
  created_by : String
  type : TaskOutputRatingType
  rating : ℚ
  requirement_ratings : List (String × ℚ)
deriving DecidableEq, Repr

/-- Project, a KilnParentModel with no parent.  `path` is the filesystem
location once persisted, absent for an entity not yet saved.  The `tasks`
child relationship is a directory scan and is not an in-memory field. -/
structure Project where
  id : String
  path : Option String
  created_at : String
  created_by : String
  name : String
  description : String
deriving DecidableEq, Repr

/-- TaskRequirement, a KilnParentedModel child of Task.  Its validators use
no cross-entity data, so the parent back-reference is not modelled. -/
structure TaskRequirement where
  id : String
  path : Option String
  created_at : String
  created_by : String
  name : String
  description : String
  instruction : String
  priority : Priority
deriving DecidableEq, Repr

/-- Task, a KilnParentedModel (parent Project) and KilnParentModel (children
requirements and runs).  `parent` is the nullable in-memory back-reference
of KilnParentedModel.  `requirements` models the Parent Container child
enumeration of the spec: the TaskRequirement children reachable under the
task's directory (basemodel.py, which performs the directory scan, is not
among the provided sources).  The `runs` relationship is used by no
validator and is not modelled. -/
structure Task where
  id : String
  path : Option String
  created_at : String
  created_by : String
  parent : Option Project
  name : String
  description : String
  priority : Priority
  determinism : TaskDeterminism
  instruction : String
  output_json_schema : Option String
  input_json_schema : Option String
  requirements : List TaskRequirement
deriving DecidableEq, Repr

/-- TaskRun, a KilnParentedModel child of Task and parent of outputs. -/
structure TaskRun where
  id : String
  path : Option String
  created_at : String
  created_by : String
  parent : Option Task
  input : String
  source : DataSourceType
  source_properties : List (String × String)
deriving DecidableEq, Repr

/-- TaskOutput, a KilnParentedModel child of TaskRun. -/
structure TaskOutput where
  id : String
  path : Option String
  created_at : String
  created_by : String
  parent : Option TaskRun
  output : String
  source : DataSourceType
  source_properties : List (String × String)
  rating : Option TaskOutputRating
  fixed_output : Option String
deriving DecidableEq, Repr

/-- TaskOutputRating._validate_five_star: a five-star value must be an
integer-valued float between 1 and 5.  (The isinstance float test of the
source is always true after pydantic coercion; here every rating is a
rational, so only the integrality test remains.) -/
def validateFiveStar (rating : ℚ) (ratingName : String) : Except KilnError Unit :=
  if ¬ rating.isInt then
    Except.error (KilnError.constraintError
      (ratingName ++ " of type five_star must be an integer value"))
  else if rating < 1 ∨ 5 < rating then
    Except.error (KilnError.constraintError
      (ratingName ++ " of type five_star must be between 1 and 5 stars"))
  else Except.ok ()

/-- The loop of validate_rating over requirement_ratings.items(). -/
def validateFiveStarList : List (String × ℚ) → Except KilnError Unit
  | [] => Except.ok ()
  | (reqId, reqRating) :: rest =>
    match validateFiveStar reqRating ("requirement rating for " ++ reqId) with
    | Except.error e => Except.error e
    | Except.ok _ => validateFiveStarList rest

/-- TaskOutputRating.validate_rating: five-star constraints apply when the
type is five_star; a custom rating is accepted unchanged. -/
def TaskOutputRating.validate_rating (r : TaskOutputRating) : Except KilnError Unit :=
  match r.type with
  | TaskOutputRatingType.five_star =>
    match validateFiveStar r.rating "overall rating" with
    | Except.error e => Except.error e
    | Except.ok _ => validateFiveStarList r.requirement_ratings
  | TaskOutputRatingType.custom => Except.ok ()

/-- TaskOutput.parent_task_run: the parent, when it is a TaskRun (in the
typed embedding the parent can only be a TaskRun or absent). -/
def TaskOutput.parent_task_run (o : TaskOutput) : Option TaskRun :=
  o.parent

/-- TaskOutput.task_for_validation: walk the parent chain to the Task two
levels up; none while the chain is not resolvable. -/
def TaskOutput.task_for_validation (o : TaskOutput) : Option Task :=
  match o.parent_task_run with
  | none => none
  | some run => run.parent

/-- TaskOutput.validate_output_format: when the ancestor Task is resolvable
and declares output_json_schema, the output text must parse as JSON and
conform; a detached output defers the check. -/
def TaskOutput.validate_output_format (o : TaskOutput) : Except KilnError Unit :=
  match o.task_for_validation with
  | none => Except.ok ()
  | some task =>
    match task.output_json_schema with
    | none => Except.ok ()
    | some schemaText =>
      match parseJson o.output with
      | none => Except.error (KilnError.formatError "Output is not a valid JSON object")
      | some j =>
        match validate_schema j schemaText with
        | Except.ok _ => Except.ok ()
        | Except.error (KilnError.schemaMismatchError m) =>
          Except.error (KilnError.schemaMismatchError
            ("Output does not match task output schema: " ++ m))
        | Except.error e => Except.error e

/-- First key of `keys` that is not a member of `validIds` (the loop of
validate_requirement_rating_keys). -/
def firstInvalidKey : List String → List String → Option String
  | [], _ => none
  | k :: rest, validIds =>
    if k ∈ validIds then firstInvalidKey rest validIds else some k

/-- TaskOutput.validate_requirement_rating_keys: every requirement_ratings
key must be the id of a TaskRequirement of the ancestor Task; deferred when
the rating is absent or empty or the ancestor is not resolvable.  The raise
site is the spec's ReferenceError. -/
def TaskOutput.validate_requirement_rating_keys (o : TaskOutput) : Except KilnError Unit :=
  match o.rating with
  | none => Except.ok ()
  | some r =>
    if r.requirement_ratings.length = 0 then Except.ok ()
    else
      match o.task_for_validation with
      | none => Except.ok ()
      | some task =>
        match firstInvalidKey (r.requirement_ratings.map (fun p => p.1))
            (task.requirements.map (fun q => q.id)) with
        | some k => Except.error (KilnError.referenceError k)
        | none => Except.ok ()

/-- The keys validate_source_properties requires per source type. -/
def requiredKeysFor : DataSourceType → List String
  | DataSourceType.synthetic =>
    ["adapter_name", "model_name", "model_provider", "prompt_builder_name"]
  | DataSourceType.human => ["creator"]

/-- Association lookup in a string map (Python dict access). -/
def lookupStr : List (String × String) → String → Option String
  | [], _ => none
  | (k, v) :: rest, key => if k = key then some v else lookupStr rest key

/-- The loop of validate_source_properties: collect the required keys that
are missing, raising at once when a required key is present but maps to the
empty string. -/
def collectMissingKeys : List String → List (String × String) → Except KilnError (List String)
  | [], _ => Except.ok []
  | k :: ks, props =>
    match lookupStr props k with
    | none =>
      match collectMissingKeys ks props with
      | Except.error e => Except.error e
      | Except.ok rest => Except.ok (k :: rest)
    | some v =>
      if v = "" then Except.error (KilnError.emptyValueError k)
      else collectMissingKeys ks props

/-- TaskOutput.validate_source_properties: all keys required for the
output's source type must be present and non-empty. -/
def TaskOutput.validate_source_properties (o : TaskOutput) : Except KilnError Unit :=
  match collectMissingKeys (requiredKeysFor o.source) o.source_properties with
  | Except.error e => Except.error e
  | Except.ok [] => Except.ok ()
  | Except.ok missing => Except.error (KilnError.missingKeysError missing)

/-- All validation run for a TaskOutput: the nested rating model's own
validator (pydantic validates nested models first), then the three model
validators in their declaration order. -/
def TaskOutput.runValidators (o : TaskOutput) : Except KilnError Unit :=
  exSeq
    (match o.rating with
     | none => Except.ok ()
     | some r => r.validate_rating)
    (exSeq o.validate_output_format
      (exSeq o.validate_requirement_rating_keys o.validate_source_properties))

/-- TaskRun.validate_input_format: when the parent Task is resolvable and
declares input_json_schema, the input text must parse as JSON and conform;
a detached run defers the check. -/
def TaskRun.validate_input_format (r : TaskRun) : Except KilnError Unit :=
  match r.parent with
  | none => Except.ok ()
  | some task =>
    match task.input_json_schema with
    | none => Except.ok ()
    | some schemaText =>
      match parseJson r.input with
      | none => Except.error (KilnError.formatError "Input is not a valid JSON object")
      | some j =>
        match validate_schema j schemaText with
        | Except.ok _ => Except.ok ()
        | Except.error (KilnError.schemaMismatchError m) =>
          Except.error (KilnError.schemaMismatchError
            ("Input does not match task input schema: " ++ m))
        | Except.error e => Except.error e

/-- All validation run for a TaskRun: validate_input_format is its only
validator; TaskRun declares no check on source or source_properties. -/
def TaskRun.runValidators (r : TaskRun) : Except KilnError Unit :=
  r.validate_input_format

/-- A character allowed by NAME_REGEX = r"^[A-Za-z0-9 _-]+$". -/
def isNameChar (c : Char) : Bool :=
  c.isAlpha || c.isDigit || c = ' ' || c = '_' || c = '-'

/-- NAME_FIELD: min_length 1, max_length 120, and the filename-safe
character set of NAME_REGEX. -/
def nameOk (s : String) : Bool :=
  decide (1 ≤ s.length) && decide (s.length ≤ 120) && s.data.all isNameChar

/-- Field check for a NAME_FIELD value. -/
def checkName (s : String) : Except KilnError Unit :=
  if nameOk s then Except.ok ()
  else Except.error (KilnError.constraintError "name must be 1-120 filename-safe characters")

/-- Field check for an instruction field (min_length 1). -/
def checkInstruction (s : String) : Except KilnError Unit :=
  if 1 ≤ s.length then Except.ok ()
  else Except.error (KilnError.constraintError "instruction must not be empty")

/-- Field check for an optional JsonObjectSchema field: when present the
text must compile as a schema (modelled from the spec, json_schema.py being
absent from the sources). -/
def checkSchemaText : Option String → Except KilnError Unit
  | none => Except.ok ()
  | some s =>
    match schema_from_json_str s with
    | Except.error e => Except.error e
    | Except.ok _ => Except.ok ()

/-- All validation run for a Project: its only constrained field is name. -/
def Project.runValidators (p : Project) : Except KilnError Unit :=
  checkName p.name

/-- All validation run for a TaskRequirement: name and instruction. -/
def TaskRequirement.runValidators (r : TaskRequirement) : Except KilnError Unit :=
  exSeq (checkName r.name) (checkInstruction r.instruction)

/-- All validation run for a Task: name, instruction, and both optional
schema fields must compile. -/
def Task.runValidators (t : Task) : Except KilnError Unit :=
  exSeq (checkName t.name)
    (exSeq (checkInstruction t.instruction)
      (exSeq (checkSchemaText t.output_json_schema) (checkSchemaText t.input_json_schema)))

/-- The five persisted entity kinds. -/
inductive Entity where
  | project (p : Project)
  | task (t : Task)
  | requirement (r : TaskRequirement)
  | run (r : TaskRun)
  | output (o : TaskOutput)
deriving DecidableEq, Repr

/-- The filesystem path of an entity, when assigned. -/
def Entity.path : Entity → Option String
  | Entity.project p => p.path
  | Entity.task t => t.path
  | Entity.requirement r => r.path
  | Entity.run r => r.path
  | Entity.output o => o.path

/-- All validation run for an entity, dispatched by kind. -/
def Entity.runValidators : Entity → Except KilnError Unit
  | Entity.project p => p.runValidators
  | Entity.task t => t.runValidators
  | Entity.requirement r => r.runValidators
  | Entity.run r => r.runValidators
  | Entity.output o => o.runValidators

/-- Encode an optional string field as JSON. -/
def encodeOptStr : Option String → Json
  | none => Json.null
  | some s => Json.str s

/-- Decode an optional string field. -/
def decodeOptStr : Json → Option (Option String)
  | Json.null => some none
  | Json.str s => some (some s)
  | _ => none

/-- Priority values serialize as their IntEnum number. -/
def encodePriority : Priority → Json
  | Priority.p0 => Json.num 0
  | Priority.p1 => Json.num 1
  | Priority.p2 => Json.num 2
  | Priority.p3 => Json.num 3

/-- Decode a Priority from its serialized number. -/
def decodePriority : Json → Option Priority
  | Json.num q =>
    if q = 0 then some Priority.p0
    else if q = 1 then some Priority.p1
    else if q = 2 then some Priority.p2
    else if q = 3 then some Priority.p3
    else none
  | _ => none

/-- TaskDeterminism values serialize as their string value. -/
def encodeDeterminism : TaskDeterminism → Json
  | TaskDeterminism.deterministic => Json.str "deterministic"
  | TaskDeterminism.semantic_match => Json.str "semantic_match"
  | TaskDeterminism.flexible => Json.str "flexible"

/-- Decode a TaskDeterminism from its serialized string. -/
def decodeDeterminism : Json → Option TaskDeterminism
  | Json.str s =>
    if s = "deterministic" then some TaskDeterminism.deterministic
    else if s = "semantic_match" then some TaskDeterminism.semantic_match
    else if s = "flexible" then some TaskDeterminism.flexible
    else none
  | _ => none

/-- DataSourceType values serialize as their string value. -/
def encodeSourceType : DataSourceType → Json
  | DataSourceType.human => Json.str "human"
  | DataSourceType.synthetic => Json.str "synthetic"

/-- Decode a DataSourceType from its serialized string. -/
def decodeSourceType : Json → Option DataSourceType
  | Json.str s =>
    if s = "human" then some DataSourceType.human
    else if s = "synthetic" then some DataSourceType.synthetic
    else none
  | _ => none

/-- TaskOutputRatingType values serialize as their string value. -/
def encodeRatingType : TaskOutputRatingType → Json
  | TaskOutputRatingType.five_star => Json.str "five_star"
  | TaskOutputRatingType.custom => Json.str "custom"

/-- Decode a TaskOutputRatingType from its serialized string. -/
def decodeRatingType : Json → Option TaskOutputRatingType
  | Json.str s =>
    if s = "five_star" then some TaskOutputRatingType.five_star
    else if s = "custom" then some TaskOutputRatingType.custom
    else none
  | _ => none

/-- Encode a string-to-string map field. -/
def encodeStrMap (m : List (String × String)) : List (String × Json) :=
  m.map (fun p => (p.1, Json.str p.2))

/-- Decode a string-to-string map field. -/
def decodeStrMap : List (String × Json) → Option (List (String × String))
  | [] => some []
  | (k, Json.str v) :: rest =>
    match decodeStrMap rest with
    | none => none
    | some r => some ((k, v) :: r)
  | _ => none

/-- Encode a string-to-rating map field. -/
def encodeRatMap (m : List (String × ℚ)) : List (String × Json) :=
  m.map (fun p => (p.1, Json.num p.2))

/-- Decode a string-to-rating map field. -/
def decodeRatMap : List (String × Json) → Option (List (String × ℚ))
  | [] => some []
  | (k, Json.num v) :: rest =>
    match decodeRatMap rest with
    | none => none
    | some r => some ((k, v) :: r)
  | _ => none

/-- Modelled from the spec: the persisted form of a nested rating (each
file is a JSON object whose fields mirror the entity's attributes). -/
def encodeRating (r : TaskOutputRating) : Json :=
  Json.obj
    [("id", Json.str r.id),
     ("created_at", Json.str r.created_at),
     ("created_by", Json.str r.created_by),
     ("type", encodeRatingType r.type),
     ("rating", Json.num r.rating),
     ("requirement_ratings", Json.obj (encodeRatMap r.requirement_ratings))]

/-- Decode a persisted rating. -/
def decodeRating : Json → Option TaskOutputRating
  | Json.obj
      [("id", Json.str i),
       ("created_at", Json.str ca),
       ("created_by", Json.str cb),
       ("type", t),
       ("rating", Json.num rv),
       ("requirement_ratings", Json.obj rr)] =>
    match decodeRatingType t, decodeRatMap rr with
    | some ty, some rats =>
      some { id := i, created_at := ca, created_by := cb, type := ty,
             rating := rv, requirement_ratings := rats }
    | _, _ => none
  | _ => none

/-- Encode an optional nested rating. -/
def encodeOptRating : Option TaskOutputRating → Json
  | none => Json.null
  | some r => encodeRating r

/-- Decode an optional nested rating. -/
def decodeOptRating : Json → Option (Option TaskOutputRating)
  | Json.null => some none
  | j =>
    match decodeRating j with
    | none => none
    | some r => some (some r)

/-- Modelled from the spec: each entity is persisted as a single JSON
object whose fields mirror the entity's attributes plus a model-type
marker; `path`, the parent back-reference and the child enumeration are
not persisted (children live in their own files, the parent is recovered
from the directory structure). -/
def encodeEntity : Entity → Json
  | Entity.project p =>
    Json.obj
      [("model_type", Json.str "project"),
       ("id", Json.str p.id),
       ("created_at", Json.str p.created_at),
       ("created_by", Json.str p.created_by),
       ("name", Json.str p.name),
       ("description", Json.str p.description)]
  | Entity.task t =>
    Json.obj
      [("model_type", Json.str "task"),
       ("id", Json.str t.id),
       ("created_at", Json.str t.created_at),
       ("created_by", Json.str t.created_by),
       ("name", Json.str t.name),
       ("description", Json.str t.description),
       ("priority", encodePriority t.priority),
       ("determinism", encodeDeterminism t.determinism),
       ("instruction", Json.str t.instruction),
       ("output_json_schema", encodeOptStr t.output_json_schema),
       ("input_json_schema", encodeOptStr t.input_json_schema)]
  | Entity.requirement r =>
    Json.obj
      [("model_type", Json.str "task_requirement"),
       ("id", Json.str r.id),
       ("created_at", Json.str r.created_at),
       ("created_by", Json.str r.created_by),
       ("name", Json.str r.name),
       ("description", Json.str r.description),
       ("instruction", Json.str r.instruction),
       ("priority", encodePriority r.priority)]
  | Entity.run r =>
    Json.obj
      [("model_type", Json.str "task_run"),
       ("id", Json.str r.id),
       ("created_at", Json.str r.created_at),
       ("created_by", Json.str r.created_by),
       ("input", Json.str r.input),
       ("source", encodeSourceType r.source),
       ("source_properties", Json.obj (encodeStrMap r.source_properties))]
  | Entity.output o =>
    Json.obj
      [("model_type", Json.str "task_output"),
       ("id", Json.str o.id),
       ("created_at", Json.str o.created_at),
       ("created_by", Json.str o.created_by),
       ("output", Json.str o.output),
       ("source", encodeSourceType o.source),
       ("source_properties", Json.obj (encodeStrMap o.source_properties)),
       ("rating", encodeOptRating o.rating),
       ("fixed_output", encodeOptStr o.fixed_output)]

/-- Decode one persisted entity file found at `p`: the loaded entity gets
its path from the file location and comes back detached (the parent is
resolved lazily, the child list by directory scan on demand). -/
def decodeEntity (p : String) : Json → Option Entity
  | Json.obj
      [("model_type", Json.str "project"),
       ("id", Json.str i),
       ("created_at", Json.str ca),
       ("created_by", Json.str cb),
       ("name", Json.str n),
       ("description", Json.str d)] =>
    some (Entity.project
      { id := i, path := some p, created_at := ca, created_by := cb,
        name := n, description := d })
  | Json.obj
      [("model_type", Json.str "task"),
       ("id", Json.str i),
       ("created_at", Json.str ca),
       ("created_by", Json.str cb),
       ("name", Json.str n),
       ("description", Json.str d),
       ("priority", pr),
       ("determinism", dt),
       ("instruction", Json.str ins),
       ("output_json_schema", os),
       ("input_json_schema", is)] =>
    match decodePriority pr, decodeDeterminism dt, decodeOptStr os, decodeOptStr is with
    | some prio, some det, some osv, some isv =>
      some (Entity.task
        { id := i, path := some p, created_at := ca, created_by := cb,
          parent := none, name := n, description := d, priority := prio,
          determinism := det, instruction := ins, output_json_schema := osv,
          input_json_schema := isv, requirements := [] })
    | _, _, _, _ => none
  | Json.obj
      [("model_type", Json.str "task_requirement"),
       ("id", Json.str i),
       ("created_at", Json.str ca),
       ("created_by", Json.str cb),
       ("name", Json.str n),
       ("description", Json.str d),
       ("instruction", Json.str ins),
       ("priority", pr)] =>
    match decodePriority pr with
    | some prio =>
      some (Entity.requirement
        { id := i, path := some p, created_at := ca, created_by := cb,
          name := n, description := d, instruction := ins, priority := prio })
    | none => none
  | Json.obj
      [("model_type", Json.str "task_run"),
       ("id", Json.str i),
       ("created_at", Json.str ca),
       ("created_by", Json.str cb),
       ("input", Json.str inp),
       ("source", src),
       ("source_properties", Json.obj props)] =>
    match decodeSourceType src, decodeStrMap props with
    | some s, some ps =>
      some (Entity.run
        { id := i, path := some p, created_at := ca, created_by := cb,
          parent := none, input := inp, source := s, source_properties := ps })
    | _, _ => none
  | Json.obj
      [("model_type", Json.str "task_output"),
       ("id", Json.str i),
       ("created_at", Json.str ca),
       ("created_by", Json.str cb),
       ("output", Json.str outp),
       ("source", src),
       ("source_properties", Json.obj props),
       ("rating", rat),
       ("fixed_output", fo)] =>
    match decodeSourceType src, decodeStrMap props, decodeOptRating rat, decodeOptStr fo with
    | some s, some ps, some r, some f =>
      some (Entity.output
        { id := i, path := some p, created_at := ca, created_by := cb,
          parent := none, output := outp, source := s, source_properties := ps,
          rating := r, fixed_output := f })
    | _, _, _, _ => none
  | _ => none

/-- The modelled filesystem: path to file content. -/
abbrev Store := List (String × Json)

/-- Detach an entity: clear the fields that are not persisted in the
entity's own file (the in-memory parent back-reference and the cached
child enumeration).  Every persisted field, path included, is kept. -/
def stripEntity : Entity → Entity
  | Entity.project p => Entity.project p
  | Entity.task t => Entity.task { t with parent := none, requirements := [] }
  | Entity.requirement r => Entity.requirement r
  | Entity.run r => Entity.run { r with parent := none }
  | Entity.output o => Entity.output { o with parent := none }

/-- Deep equality on all persisted fields: the entities agree everywhere
except possibly on the transient parent/children fields. -/
def persistedEq (a b : Entity) : Prop :=
  stripEntity a = stripEntity b

/-- Modelled from the spec: KilnBaseModel.save_to_file (basemodel.py is not
among the provided sources).  Save runs every validator immediately before
writing and refuses to write on any failure; on success the serialized
entity is written at the entity's path. -/
def save (e : Entity) (st : Store) : Except KilnError Store :=
  match e.path with
  | none => Except.error KilnError.pathMissingError
  | some p =>
    match e.runValidators with
    | Except.error err => Except.error err
    | Except.ok _ => Except.ok ((p, encodeEntity e) :: st)

/-- Does a persistence or validation operation succeed? -/
def exceptOk {α : Type} : Except KilnError α → Bool
  | Except.ok _ => true
  | Except.error _ => false

/-- Modelled from the spec: KilnBaseModel.load_from_file.  Load reads
exactly one file, deserializes it, and re-runs current validation rules on
the result rather than trusting disk. -/
def load (p : String) (st : Store) : Except KilnError Entity :=
  match getField st p with
  | none => Except.error (KilnError.notFoundError p)
  | some doc =>
    match decodeEntity p doc with
    | none => Except.error (KilnError.formatError "entity file is not a valid document")
    | some e =>
      match e.runValidators with
      | Except.error err => Except.error err
      | Except.ok _ => Except.ok e

/-- The character class of the spec's name restriction, written as the
spec writes it: characters from [A-Za-z0-9 _-]. -/
def specNameChar (c : Char) : Prop :=
  ('A' ≤ c ∧ c ≤ 'Z') ∨ ('a' ≤ c ∧ c ≤ 'z') ∨ ('0' ≤ c ∧ c ≤ '9') ∨
    c = ' ' ∨ c = '_' ∨ c = '-'

/-- A schema admitting only JSON integers, used by concrete scenarios. -/
def intSchemaText : String := "\x7b\"type\": \"integer\"\x7d"

/-- A task declaring an input schema (concrete scenario for the
input-format rule). -/
def c1Task : Task :=
  { id := "task1", path := some "proj/tasks/task1/task.json", created_at := "t0",
    created_by := "u", parent := none, name := "Test Task", description := "",
    priority := Priority.p2, determinism := TaskDeterminism.flexible,
    instruction := "test instruction", output_json_schema := none,
    input_json_schema := some intSchemaText, requirements := [] }

/-- A run of `c1Task` whose input is the JSON text "5". -/
def c1Run : TaskRun :=
  { id := "run1", path := some "proj/tasks/task1/runs/run1/task_run.json",
    created_at := "t1", created_by := "u", parent := some c1Task,
    input := "5", source := DataSourceType.human, source_properties := [] }

/-- A five-star rating with integral values in range. -/
def c2Rating : TaskOutputRating :=
  { id := "rat1", created_at := "t0", created_by := "u",
    type := TaskOutputRatingType.five_star, rating := 4,
    requirement_ratings := [("req1", 5), ("req2", 4)] }

/-- A requirement with id req1 (concrete scenario for rating keys). -/
def c3Req : TaskRequirement :=
  { id := "req1", path := some "proj/tasks/task3/requirements/req1/task_requirement.json",
    created_at := "t0", created_by := "u", name := "Requirement 1",
    description := "", instruction := "Requirement 1 instruction",
    priority := Priority.p2 }

/-- A task owning only requirement req1 and declaring no schemas. -/
def c3Task : Task :=
  { id := "task3", path := some "proj/tasks/task3/task.json", created_at := "t0",
    created_by := "u", parent := none, name := "Test Task", description := "",
    priority := Priority.p2, determinism := TaskDeterminism.flexible,
    instruction := "Task instruction", output_json_schema := none,
    input_json_schema := none, requirements := [c3Req] }

/-- A run of `c3Task`. -/
def c3Run : TaskRun :=
  { id := "run3", path := some "proj/tasks/task3/runs/run3/task_run.json",
    created_at := "t1", created_by := "u", parent := some c3Task,
    input := "Test input", source := DataSourceType.human,
    source_properties := [] }

/-- A rating naming the unknown requirement id unknown_id. -/
def c3Rating : TaskOutputRating :=
  { id := "rat3", created_at := "t2", created_by := "u",
    type := TaskOutputRatingType.five_star, rating := 4,
    requirement_ratings := [("unknown_id", 5)] }

/-- An output under `c3Run` carrying `c3Rating`. -/
def c3Output : TaskOutput :=
  { id := "out3", path := some "proj/tasks/task3/runs/run3/outputs/out3/task_output.json",
    created_at := "t2", created_by := "u", parent := some c3Run,
    output := "Test output", source := DataSourceType.human,
    source_properties := [("creator", "john_doe")], rating := some c3Rating,
    fixed_output := none }

/-- A human-sourced run with an empty source_properties map: the claim that
TaskRun validation requires the source's keys is refuted on it. -/
def c4Run : TaskRun :=
  { id := "run4", path := some "proj/tasks/task4/runs/run4/task_run.json",
    created_at := "t1", created_by := "u", parent := some c3Task,
    input := "Test input", source := DataSourceType.human,
    source_properties := [] }

/-- A human-sourced output that also carries model_name, a key the spec's
table would forbid for a human source: no forbidden-key check fires. -/
def c4Output : TaskOutput :=
  { id := "out4", path := none, created_at := "t2", created_by := "u",
    parent := none, output := "Test output", source := DataSourceType.human,
    source_properties := [("creator", "john_doe"), ("model_name", "GPT-4")],
    rating := none, fixed_output := none }

/-- Detached human output with no source_properties at all. -/
def c5OutMissing : TaskOutput :=
  { id := "out5a", path := none, created_at := "t0", created_by := "u",
    parent := none, output := "Test output", source := DataSourceType.human,
    source_properties := [], rating := none, fixed_output := none }

/-- Detached human output whose creator key maps to the empty string. -/
def c5OutEmpty : TaskOutput :=
  { id := "out5b", path := none, created_at := "t0", created_by := "u",
    parent := none, output := "Test output", source := DataSourceType.human,
    source_properties := [("creator", "")], rating := none, fixed_output := none }

/-- Detached synthetic output carrying all four required keys, non-empty. -/
def c5OutSynth : TaskOutput :=
  { id := "out5c", path := none, created_at := "t0", created_by := "u",
    parent := none, output := "Test output", source := DataSourceType.synthetic,
    source_properties :=
      [("adapter_name", "TestAdapter"), ("model_name", "GPT-4"),
       ("model_provider", "OpenAI"), ("prompt_builder_name", "TestPromptBuilder")],
    rating := none, fixed_output := none }

/-- A task declaring the integer output schema. -/
def c6Task : Task :=
  { id := "task6", path := some "proj/tasks/task6/task.json", created_at := "t0",
    created_by := "u", parent := none, name := "Test Task", description := "",
    priority := Priority.p2, determinism := TaskDeterminism.flexible,
    instruction := "test instruction", output_json_schema := some intSchemaText,
    input_json_schema := none, requirements := [] }

/-- A run of `c6Task`. -/
def c6Run : TaskRun :=
  { id := "run6", path := some "proj/tasks/task6/runs/run6/task_run.json",
    created_at := "t1", created_by := "u", parent := some c6Task,
    input := "Test input", source := DataSourceType.human,
    source_properties := [("creator", "john_doe")] }

/-- A detached output whose text parses as the JSON value true, violating
`c6Task`'s integer output schema. -/
def c6Detached : TaskOutput :=
  { id := "out6", path := none, created_at := "t2", created_by := "u",
    parent := none, output := "true", source := DataSourceType.human,
    source_properties := [("creator", "john_doe")], rating := none,
    fixed_output := none }

/-- The same output attached under `c6Run` and given a path. -/
def c6Attached : TaskOutput :=
  { c6Detached with
    parent := some c6Run,
    path := some "proj/tasks/task6/runs/run6/outputs/out6/task_output.json" }

/-- A project with a valid name. -/
def c7Project : Project :=
  { id := "proj7", path := some "proj/project.json", created_at := "t0",
    created_by := "u", name := "Test Project", description := "" }

/-- A project ready to be saved and loaded back. -/
def c8Project : Project :=
  { id := "proj8", path := some "proj8/project.json", created_at := "t0",
    created_by := "u", name := "Round Trip", description := "d" }

/-- The store produced by saving `c8Project` into an empty store. -/
def c8Store : Store :=
  [("proj8/project.json", encodeEntity (Entity.project c8Project))]

/-- A custom-typed rating with a negative fractional value. -/
def c9Rating : TaskOutputRating :=
  { id := "rat9", created_at := "t0", created_by := "u",
    type := TaskOutputRatingType.custom, rating := mkRat (-7) 2,
    requirement_ratings := [("req1", mkRat 99 10)] }

/-- A detached human output with empty source_properties. -/
def c10Output : TaskOutput :=
  { id := "out10", path := none, created_at := "t0", created_by := "u",
    parent := none, output := "Test output", source := DataSourceType.human,
    source_properties := [], rating := none, fixed_output := none }

theorem decodeStrMap_encodeStrMap (m : List (String × String)) :
    decodeStrMap (encodeStrMap m) = some m := by
  induction m with
  | nil => rfl
  | cons hd tl ih => simp [encodeStrMap, decodeStrMap] at ih ⊢; simp [ih]

theorem decodeRatMap_encodeRatMap (m : List (String × ℚ)) :
    decodeRatMap (encodeRatMap m) = some m := by
  induction m with
  | nil => rfl
  | cons hd tl ih => simp [encodeRatMap, decodeRatMap] at ih ⊢; simp [ih]

theorem decodeRating_inv (i ca cb : String) (t : Json) (rv : ℚ) (rr : List (String × Json)) :
    decodeRating (Json.obj
      [("id", Json.str i), ("created_at", Json.str ca), ("created_by", Json.str cb),
       ("type", t), ("rating", Json.num rv), ("requirement_ratings", Json.obj rr)]) =
      (match decodeRatingType t, decodeRatMap rr with
       | some ty, some rats =>
         some { id := i, created_at := ca, created_by := cb, type := ty,
                rating := rv, requirement_ratings := rats }
       | _, _ => none) := rfl

theorem decodeRating_encodeRating (r : TaskOutputRating) :
    decodeRating (encodeRating r) = some r := by
  cases r with
  | mk i ca cb ty rv rr =>
    cases ty <;>
      simp [encodeRating, encodeRatingType, decodeRating_inv, decodeRatingType,
        decodeRatMap_encodeRatMap]

theorem decodeEntity_run_inv (s i ca cb inp : String) (src : Json)
    (props : List (String × Json)) :
    decodeEntity s (Json.obj
      [("model_type", Json.str "task_run"), ("id", Json.str i),
       ("created_at", Json.str ca), ("created_by", Json.str cb),
       ("input", Json.str inp), ("source", src),
       ("source_properties", Json.obj props)]) =
      (match decodeSourceType src, decodeStrMap props with
       | some s', some ps =>
         some (Entity.run
           { id := i, path := some s, created_at := ca, created_by := cb,
             parent := none, input := inp, source := s', source_properties := ps })
       | _, _ => none) := rfl

theorem decodeEntity_output_inv (s i ca cb outp : String) (src : Json)
    (props : List (String × Json)) (rat fo : Json) :
    decodeEntity s (Json.obj
      [("model_type", Json.str "task_output"), ("id", Json.str i),
       ("created_at", Json.str ca), ("created_by", Json.str cb),
       ("output", Json.str outp), ("source", src),
       ("source_properties", Json.obj props), ("rating", rat),
       ("fixed_output", fo)]) =
      (match decodeSourceType src, decodeStrMap props, decodeOptRating rat,
          decodeOptStr fo with
       | some s', some ps, some r, some f =>
         some (Entity.output
           { id := i, path := some s, created_at := ca, created_by := cb,
             parent := none, output := outp, source := s', source_properties := ps,
             rating := r, fixed_output := f })
       | _, _, _, _ => none) := rfl

theorem decodeOptRating_encodeOptRating (r : Option TaskOutputRating) :
    decodeOptRating (encodeOptRating r) = some r := by
  cases r with
  | none => rfl
  | some v =>
    show decodeOptRating (encodeRating v) = some (some v)
    have h : decodeRating (encodeRating v) = some v := decodeRating_encodeRating v
    cases v with
    | mk i ca cb ty rv rr =>
      cases ty <;> simp [encodeRating, decodeOptRating] at h ⊢ <;> simp [h]

theorem decodeEntity_encodeEntity (e : Entity) (s : String) (hp : e.path = some s) :
    decodeEntity s (encodeEntity e) = some (stripEntity e) := by
  cases e with
  | project p =>
    cases p with
    | mk i pa ca cb n d => cases hp; rfl
  | requirement r =>
    cases r with
    | mk i pa ca cb n d ins prio => cases hp; cases prio <;> rfl
  | task t =>
    cases t with
    | mk i pa ca cb par n d prio det ins os is reqs =>
      cases hp
      cases prio <;> cases det <;> cases os <;> cases is <;> rfl
  | run r =>
    cases r with
    | mk i pa ca cb par inp src props =>
      cases hp
      cases src <;>
        simp [encodeEntity, encodeSourceType, decodeEntity_run_inv, decodeSourceType,
          decodeStrMap_encodeStrMap, stripEntity]
  | output o =>
    cases o with
    | mk i pa ca cb par outp src props rat fo =>
      cases hp
      cases src <;> cases fo <;>
        simp [encodeEntity, encodeSourceType, encodeOptStr, decodeEntity_output_inv,
          decodeSourceType, decodeStrMap_encodeStrMap, decodeOptRating_encodeOptRating,
          decodeOptStr, stripEntity]

theorem exSeq_ok_iff (a b : Except KilnError Unit) :
    exSeq a b = Except.ok () ↔ a = Except.ok () ∧ b = Except.ok () := by
  cases a with
  | ok u => cases u; simp [exSeq]
  | error e => simp [exSeq]

theorem strip_validators (e : Entity) (h : e.runValidators = Except.ok ()) :
    (stripEntity e).runValidators = Except.ok () := by
  cases e with
  | project p => exact h
  | requirement r => exact h
  | task t => exact h
  | run r =>
    show TaskRun.runValidators _ = _
    simp [TaskRun.runValidators, TaskRun.validate_input_format]
  | output o =>
    show TaskOutput.runValidators _ = _
    have h' := h
    simp only [Entity.runValidators, TaskOutput.runValidators, exSeq_ok_iff] at h'
    simp only [TaskOutput.runValidators, exSeq_ok_iff]
    refine ⟨h'.1, ?_, ?_, h'.2.2.2⟩
    · simp [TaskOutput.validate_output_format, TaskOutput.task_for_validation,
        TaskOutput.parent_task_run]
    · simp [TaskOutput.validate_requirement_rating_keys, TaskOutput.task_for_validation,
        TaskOutput.parent_task_run]
      cases o.rating <;> simp

theorem stripEntity_idem (e : Entity) : stripEntity (stripEntity e) = stripEntity e := by
  cases e <;> rfl

theorem validateFiveStar_ok_iff (q : ℚ) (n : String) :
    validateFiveStar q n = Except.ok () ↔ (q.isInt = true ∧ 1 ≤ q ∧ q ≤ 5) := by
  by_cases h1 : q.isInt
  · by_cases h2 : q < 1 ∨ 5 < q
    · simp [validateFiveStar, h1, h2]
      intro ha
      rcases h2 with h2 | h2
      · exact absurd h2 (not_lt.mpr ha)
      · exact h2
    · have hc : ¬ (q < 1 ∨ 5 < q) := h2
      push_neg at h2
      simp [validateFiveStar, h1, hc, h2.1, h2.2]
  · simp [validateFiveStar, h1]

theorem validateFiveStarList_ok_iff (l : List (String × ℚ)) :
    validateFiveStarList l = Except.ok () ↔
      ∀ p ∈ l, (p.2.isInt = true ∧ 1 ≤ p.2 ∧ p.2 ≤ 5) := by
  induction l with
  | nil =>
    constructor
    · intro _ p hp; exact absurd hp (List.not_mem_nil p)
    · intro _; rfl
  | cons hd tl ih =>
    obtain ⟨hk, hq⟩ := hd
    constructor
    · intro h p hp
      cases hv : validateFiveStar hq ("requirement rating for " ++ hk) with
      | error e =>
        simp only [validateFiveStarList, hv] at h
        exact Except.noConfusion h
      | ok u =>
        cases u
        simp only [validateFiveStarList, hv] at h
        rcases List.mem_cons.mp hp with rfl | hp2
        · exact (validateFiveStar_ok_iff hq _).mp hv
        · exact (ih.mp h) p hp2
    · intro h
      have h1 := h (hk, hq) (List.mem_cons_self _ _)
      have h2 : validateFiveStarList tl = Except.ok () :=
        ih.mpr (fun p hp => h p (List.mem_cons_of_mem _ hp))
      simp only [validateFiveStarList, (validateFiveStar_ok_iff hq _).mpr h1]
      exact h2

theorem firstInvalidKey_none_iff (ks ids : List String) :
    firstInvalidKey ks ids = none ↔ ∀ k ∈ ks, k ∈ ids := by
  induction ks with
  | nil => simp [firstInvalidKey]
  | cons hd tl ih =>
    by_cases h : hd ∈ ids <;> simp [firstInvalidKey, h, ih]

theorem firstInvalidKey_some (ks ids : List String) (k : String)
    (h : firstInvalidKey ks ids = some k) : k ∈ ks ∧ k ∉ ids := by
  induction ks with
  | nil => simp [firstInvalidKey] at h
  | cons hd tl ih =>
    by_cases hm : hd ∈ ids
    · simp only [firstInvalidKey, if_pos hm] at h
      have h2 := ih h
      exact ⟨List.mem_cons_of_mem hd h2.1, h2.2⟩
    · simp only [firstInvalidKey, if_neg hm] at h
      obtain rfl : hd = k := Option.some.inj h
      exact ⟨List.mem_cons_self hd tl, hm⟩

theorem collectMissingKeys_ok_nil_iff (ks : List String) (props : List (String × String)) :
    collectMissingKeys ks props = Except.ok [] ↔
      ∀ k ∈ ks, ∃ v, lookupStr props k = some v ∧ v ≠ "" := by
  induction ks with
  | nil =>
    constructor
    · intro _ k hk; exact absurd hk (List.not_mem_nil k)
    · intro _; rfl
  | cons hd tl ih =>
    cases hl : lookupStr props hd with
    | none =>
      cases hc : collectMissingKeys tl props with
      | ok rest =>
        simp only [collectMissingKeys, hl, hc]
        constructor
        · intro h; exact absurd h (by simp)
        · intro h
          obtain ⟨v, hv, _⟩ := h hd (List.mem_cons_self _ _)
          rw [hl] at hv
          exact Option.noConfusion hv
      | error e =>
        simp only [collectMissingKeys, hl, hc]
        constructor
        · intro h; exact Except.noConfusion h
        · intro h
          obtain ⟨v, hv, _⟩ := h hd (List.mem_cons_self _ _)
          rw [hl] at hv
          exact Option.noConfusion hv
    | some v =>
      by_cases hv : v = ""
      · subst hv
        simp only [collectMissingKeys, hl, if_pos rfl]
        constructor
        · intro h; exact Except.noConfusion h
        · intro h
          obtain ⟨v2, hv2, hne⟩ := h hd (List.mem_cons_self _ _)
          rw [hl] at hv2
          cases Option.some.inj hv2
          exact absurd rfl hne
      · simp only [collectMissingKeys, hl, if_neg hv, ih]
        constructor
        · intro h k hk
          rcases List.mem_cons.mp hk with rfl | hk2
          · exact ⟨v, hl, hv⟩
          · exact h k hk2
        · intro h k hk
          exact h k (List.mem_cons_of_mem _ hk)

theorem validate_source_properties_ok_iff (o : TaskOutput) :
    o.validate_source_properties = Except.ok () ↔
      ∀ k ∈ requiredKeysFor o.source,
        ∃ v, lookupStr o.source_properties k = some v ∧ v ≠ "" := by
  rw [← collectMissingKeys_ok_nil_iff]
  cases hc : collectMissingKeys (requiredKeysFor o.source) o.source_properties with
  | ok l =>
    cases l with
    | nil => simp [TaskOutput.validate_source_properties, hc]
    | cons h t => simp [TaskOutput.validate_source_properties, hc]
  | error e => simp [TaskOutput.validate_source_properties, hc]

theorem isNameChar_iff (c : Char) : isNameChar c = true ↔ specNameChar c := by
  simp [isNameChar, specNameChar, Char.isAlpha, Char.isUpper, Char.isLower,
    Char.isDigit, Char.le_def]
  tauto

/-- C1: for a TaskRun whose parent Task declares input_json_schema, save
succeeds iff the input text parses as JSON and validates against that
schema; for a TaskOutput whose parent chain resolves to a Task declaring
output_json_schema, the output-format validation succeeds iff the output
text parses and validates; when the relevant schema is absent, the format
validators impose no constraint on the text. -/
theorem c1_format_validation :
    (∀ (r : TaskRun) (t : Task) (sch : String) (st : Store) (p : String),
      r.parent = some t → t.input_json_schema = some sch → r.path = some p →
      (exceptOk (save (Entity.run r) st) = true ↔
        ∃ j, parseJson r.input = some j ∧ validate_schema j sch = Except.ok ())) ∧
    (∀ (o : TaskOutput) (tr : TaskRun) (t : Task) (sch : String),
      o.parent = some tr → tr.parent = some t → t.output_json_schema = some sch →
      (o.validate_output_format = Except.ok () ↔
        ∃ j, parseJson o.output = some j ∧ validate_schema j sch = Except.ok ())) ∧
    (∀ (r : TaskRun) (t : Task),
      r.parent = some t → t.input_json_schema = none →
      r.validate_input_format = Except.ok ()) ∧
    (∀ (o : TaskOutput) (tr : TaskRun) (t : Task),
      o.parent = some tr → tr.parent = some t → t.output_json_schema = none →
      o.validate_output_format = Except.ok ()) := by
  refine ⟨?_, ?_, ?_, ?_⟩
  · intro r t sch st p hpar hsch hp
    simp only [save, Entity.path, hp, Entity.runValidators, TaskRun.runValidators,
      TaskRun.validate_input_format, hpar, hsch]
    cases hj : parseJson r.input with
    | none => simp [exceptOk]
    | some j =>
      simp only [Option.some.injEq]
      cases hv : validate_schema j sch with
      | ok u =>
        cases u
        simp [exceptOk, hv]
      | error e =>
        cases e <;> simp [exceptOk, hv]
  · intro o tr t sch hpar hrun hsch
    simp only [TaskOutput.validate_output_format, TaskOutput.task_for_validation,
      TaskOutput.parent_task_run, hpar, hrun, hsch]
    cases hj : parseJson o.output with
    | none => simp
    | some j =>
      simp only [Option.some.injEq]
      cases hv : validate_schema j sch with
      | ok u =>
        cases u
        simp [hv]
      | error e =>
        cases e <;> simp [hv]
  · intro r t hpar hsch
    simp [TaskRun.validate_input_format, hpar, hsch]
  · intro o tr t hpar hrun hsch
    simp [TaskOutput.validate_output_format, TaskOutput.task_for_validation,
      TaskOutput.parent_task_run, hpar, hrun, hsch]

theorem c1_witness : exceptOk (save (Entity.run c1Run) []) = true :=
  (c1_format_validation.1 c1Run c1Task intSchemaText []
      "proj/tasks/task1/runs/run1/task_run.json" rfl rfl rfl).mpr
    ⟨Json.num 5, rfl, rfl⟩

/-- C2: a TaskOutputRating of type five_star validates iff the overall
rating has no fractional part and lies in [1, 5], and the same constraint
holds for every value in requirement_ratings. -/
theorem c2_five_star_rating (r : TaskOutputRating)
    (h : r.type = TaskOutputRatingType.five_star) :
    r.validate_rating = Except.ok () ↔
      ((r.rating.isInt = true ∧ 1 ≤ r.rating ∧ r.rating ≤ 5) ∧
       ∀ p ∈ r.requirement_ratings, (p.2.isInt = true ∧ 1 ≤ p.2 ∧ p.2 ≤ 5)) := by
  simp only [TaskOutputRating.validate_rating, h]
  cases hv : validateFiveStar r.rating "overall rating" with
  | error e =>
    have hno : ¬ (r.rating.isInt = true ∧ 1 ≤ r.rating ∧ r.rating ≤ 5) := by
      intro hc
      rw [(validateFiveStar_ok_iff _ _).mpr hc] at hv
      exact Except.noConfusion hv
    constructor
    · intro h2; exact Except.noConfusion h2
    · intro h2; exact absurd h2.1 hno
  | ok u =>
    cases u
    rw [validateFiveStarList_ok_iff]
    simp [(validateFiveStar_ok_iff _ _).mp hv]

theorem c2_witness :
    c2Rating.validate_rating = Except.ok () ↔
      ((c2Rating.rating.isInt = true ∧ 1 ≤ c2Rating.rating ∧ c2Rating.rating ≤ 5) ∧
       ∀ p ∈ c2Rating.requirement_ratings,
         (p.2.isInt = true ∧ 1 ≤ p.2 ∧ p.2 ≤ 5)) :=
  c2_five_star_rating c2Rating rfl

/-- C3: for a TaskOutput with a rating, under a resolvable parent chain,
save succeeds only when every requirement_ratings key is the id of one of
the parent Task's requirements; when some key is not, and the earlier
validators pass, save fails with the ReferenceError naming the first
offending key. -/
theorem c3_requirement_rating_keys (o : TaskOutput) (tr : TaskRun) (t : Task)
    (r : TaskOutputRating) (st : Store) (p : String)
    (hpar : o.parent = some tr) (hrun : tr.parent = some t)
    (hrat : o.rating = some r) (hp : o.path = some p) :
    (exceptOk (save (Entity.output o) st) = true →
      ∀ k ∈ r.requirement_ratings.map (fun q => q.1),
        k ∈ t.requirements.map (fun q => q.id)) ∧
    (∀ k2, firstInvalidKey (r.requirement_ratings.map (fun q => q.1))
        (t.requirements.map (fun q => q.id)) = some k2 →
      k2 ∈ r.requirement_ratings.map (fun q => q.1) ∧
      k2 ∉ t.requirements.map (fun q => q.id) ∧
      (r.validate_rating = Except.ok () → o.validate_output_format = Except.ok () →
        save (Entity.output o) st = Except.error (KilnError.referenceError k2))) := by
  have htask : o.task_for_validation = some t := by
    simp [TaskOutput.task_for_validation, TaskOutput.parent_task_run, hpar, hrun]
  constructor
  · intro hok k hk
    simp only [save, Entity.path, hp] at hok
    cases hv : (Entity.output o).runValidators with
    | error err => rw [hv] at hok; simp [exceptOk] at hok
    | ok u =>
      cases u
      have hv2 := hv
      simp only [Entity.runValidators, TaskOutput.runValidators, exSeq_ok_iff] at hv2
      have hreq := hv2.2.2.1
      simp only [TaskOutput.validate_requirement_rating_keys, hrat] at hreq
      by_cases hlen : r.requirement_ratings.length = 0
      · rw [List.length_eq_zero.mp hlen] at hk
        simp at hk
      · rw [if_neg hlen, htask] at hreq
        cases hfk : firstInvalidKey (r.requirement_ratings.map (fun q => q.1))
            (t.requirements.map (fun q => q.id)) with
        | some k3 =>
          simp only [hfk] at hreq
          exact Except.noConfusion hreq
        | none => exact (firstInvalidKey_none_iff _ _).mp hfk k hk
  · intro k2 hk2
    have hmem := firstInvalidKey_some _ _ _ hk2
    refine ⟨hmem.1, hmem.2, ?_⟩
    intro hrate hout
    have hlen : ¬ r.requirement_ratings.length = 0 := by
      intro h0
      rw [List.length_eq_zero.mp h0] at hk2
      simp [firstInvalidKey] at hk2
    have hreq : o.validate_requirement_rating_keys =
        Except.error (KilnError.referenceError k2) := by
      simp only [TaskOutput.validate_requirement_rating_keys, hrat]
      rw [if_neg hlen, htask]
      simp only [hk2]
    have hrv : (Entity.output o).runValidators =
        Except.error (KilnError.referenceError k2) := by
      simp only [Entity.runValidators, TaskOutput.runValidators, hrat, hrate, hout,
        hreq, exSeq]
    simp only [save, Entity.path, hp, hrv]

theorem c3_witness :
    save (Entity.output c3Output) [] =
      Except.error (KilnError.referenceError "unknown_id") :=
  ((c3_requirement_rating_keys c3Output c3Run c3Task c3Rating []
        "proj/tasks/task3/runs/run3/outputs/out3/task_output.json"
        rfl rfl rfl rfl).2 "unknown_id" rfl).2.2 rfl rfl

/-- C4 counterexample: a human-sourced TaskRun with an empty
source_properties map passes every TaskRun validation and saves, although
the source type's required key creator is absent; and a human-sourced
TaskOutput carrying model_name, a key required only for synthetic sources,
also passes: no forbidden-key check exists for these entities. -/
theorem c4_counterexample :
    c4Run.source = DataSourceType.human ∧
    lookupStr c4Run.source_properties "creator" = none ∧
    requiredKeysFor DataSourceType.human = ["creator"] ∧
    TaskRun.runValidators c4Run = Except.ok () ∧
    save (Entity.run c4Run) [] =
      Except.ok [("proj/tasks/task4/runs/run4/task_run.json",
        encodeEntity (Entity.run c4Run))] ∧
    lookupStr c4Output.source_properties "model_name" = some "GPT-4" ∧
    TaskOutput.runValidators c4Output = Except.ok () :=
  ⟨rfl, rfl, rfl, rfl, rfl, rfl, rfl⟩

/-- C4 amended: only TaskOutput constrains source_properties, and only by
requiring the keys of its source type to be present with non-empty values;
keys outside the table are tolerated and no forbidden-key check exists.
TaskRun validation does not consult source_properties at all. -/
theorem c4_amended_source_properties :
    (∀ o : TaskOutput, o.validate_source_properties = Except.ok () ↔
      ∀ k ∈ requiredKeysFor o.source,
        ∃ v, lookupStr o.source_properties k = some v ∧ v ≠ "") ∧
    (∀ (r : TaskRun) (ps : List (String × String)),
      TaskRun.runValidators { r with source_properties := ps } =
        TaskRun.runValidators r) := by
  constructor
  · exact validate_source_properties_ok_iff
  · intro r ps; rfl

theorem c4_witness :
    TaskRun.runValidators { c4Run with source_properties := [("creator", "X")] } =
      TaskRun.runValidators c4Run :=
  c4_amended_source_properties.2 c4Run [("creator", "X")]

/-- C5: a detached human TaskOutput with no source_properties fails with
the missing-keys error naming creator; with creator mapped to the empty
string it fails with the empty-value error on creator; a synthetic output
with the four required keys present and non-empty passes validation. -/
theorem c5_source_properties_cases :
    TaskOutput.runValidators c5OutMissing =
        Except.error (KilnError.missingKeysError ["creator"]) ∧
    TaskOutput.runValidators c5OutEmpty =
        Except.error (KilnError.emptyValueError "creator") ∧
    TaskOutput.runValidators c5OutSynth = Except.ok () :=
  ⟨rfl, rfl, rfl⟩

/-- C6: for every TaskOutput with no parent the schema-conformance and
requirement-rating-key validations defer (return ok); concretely, the
detached output whose text violates the integer schema passes all its
validation, and the same output attached under a TaskRun of the Task
declaring that schema fails to save with a schema-mismatch error. -/
theorem c6_detached_deferral :
    (∀ o : TaskOutput, o.parent = none →
      o.validate_output_format = Except.ok () ∧
      o.validate_requirement_rating_keys = Except.ok ()) ∧
    TaskOutput.runValidators c6Detached = Except.ok () ∧
    c6Attached.output = c6Detached.output ∧
    c6Attached.parent = some c6Run ∧
    c6Task.output_json_schema = some intSchemaText ∧
    save (Entity.output c6Attached) [] =
      Except.error (KilnError.schemaMismatchError
        "Output does not match task output schema: instance does not conform to schema") := by
  refine ⟨?_, rfl, rfl, rfl, rfl, rfl⟩
  intro o hp
  constructor
  · simp [TaskOutput.validate_output_format, TaskOutput.task_for_validation,
      TaskOutput.parent_task_run, hp]
  · simp [TaskOutput.validate_requirement_rating_keys, TaskOutput.task_for_validation,
      TaskOutput.parent_task_run, hp]
    cases o.rating <;> simp

theorem c6_witness :
    c6Detached.validate_output_format = Except.ok () ∧
    c6Detached.validate_requirement_rating_keys = Except.ok () :=
  c6_detached_deferral.1 c6Detached rfl

/-- C7: the name predicate of NAME_FIELD holds exactly of strings of 1 to
120 characters drawn from [A-Za-z0-9 _-]; Project, Task and
TaskRequirement validation passes only names satisfying it, and any other
name makes validation fail. -/
theorem c7_name_restrictions :
    (∀ s : String, nameOk s = true ↔
      (1 ≤ s.length ∧ s.length ≤ 120 ∧ ∀ c ∈ s.data, specNameChar c)) ∧
    (∀ p : Project, p.runValidators = Except.ok () ↔ nameOk p.name = true) ∧
    (∀ t : Task, t.runValidators = Except.ok () → nameOk t.name = true) ∧
    (∀ r : TaskRequirement, r.runValidators = Except.ok () → nameOk r.name = true) ∧
    (∀ t : Task, nameOk t.name = false → t.runValidators ≠ Except.ok ()) ∧
    (∀ r : TaskRequirement, nameOk r.name = false → r.runValidators ≠ Except.ok ()) := by
  have hname : ∀ s : String, nameOk s = true ↔
      (1 ≤ s.length ∧ s.length ≤ 120 ∧ ∀ c ∈ s.data, specNameChar c) := by
    intro s
    simp [nameOk, List.all_eq_true, isNameChar_iff, and_assoc]
  have hcheck : ∀ s : String, checkName s = Except.ok () ↔ nameOk s = true := by
    intro s
    by_cases h : nameOk s <;> simp [checkName, h]
  refine ⟨hname, ?_, ?_, ?_, ?_, ?_⟩
  · intro p
    exact hcheck p.name
  · intro t h
    have := ((exSeq_ok_iff _ _).mp h).1
    exact (hcheck t.name).mp this
  · intro r h
    have := ((exSeq_ok_iff _ _).mp h).1
    exact (hcheck r.name).mp this
  · intro t h hok
    have := ((exSeq_ok_iff _ _).mp hok).1
    rw [(hcheck t.name).mp this] at h
    exact Bool.noConfusion h
  · intro r h hok
    have := ((exSeq_ok_iff _ _).mp hok).1
    rw [(hcheck r.name).mp this] at h
    exact Bool.noConfusion h

theorem c7_witness : nameOk c7Project.name = true :=
  (c7_name_restrictions.2.1 c7Project).mp rfl

/-- C8: loading a successfully saved entity back from its path yields an
entity deep-equal to the saved one in all persisted fields (the loaded
entity differs at most in the transient parent back-reference and cached
child list). -/
theorem c8_round_trip (e : Entity) (st st' : Store) (p : String)
    (hp : e.path = some p) (hs : save e st = Except.ok st') :
    load p st' = Except.ok (stripEntity e) ∧ persistedEq (stripEntity e) e := by
  simp only [save, hp] at hs
  cases hv : e.runValidators with
  | error err =>
    rw [hv] at hs
    exact Except.noConfusion hs
  | ok u =>
    cases u
    rw [hv] at hs
    obtain rfl : (p, encodeEntity e) :: st = st' := Except.ok.inj hs
    constructor
    · have hget : getField ((p, encodeEntity e) :: st) p = some (encodeEntity e) := by
        simp [getField]
      simp only [load, hget, decodeEntity_encodeEntity e p hp,
        strip_validators e hv]
    · exact stripEntity_idem e

theorem c8_witness :
    load "proj8/project.json" c8Store =
        Except.ok (stripEntity (Entity.project c8Project)) ∧
    persistedEq (stripEntity (Entity.project c8Project)) (Entity.project c8Project) :=
  c8_round_trip (Entity.project c8Project) [] c8Store "proj8/project.json" rfl rfl

/-- C9: a TaskOutputRating of type custom always validates, whatever the
rating value or the requirement_ratings values. -/
theorem c9_custom_rating (r : TaskOutputRating)
    (h : r.type = TaskOutputRatingType.custom) :
    r.validate_rating = Except.ok () := by
  simp [TaskOutputRating.validate_rating, h]

theorem c9_witness : c9Rating.validate_rating = Except.ok () :=
  c9_custom_rating c9Rating rfl

/-- C10: the source-properties validation is not deferred for a detached
TaskOutput: with no parent, a human source and an empty map it fails at
once with the missing-keys error naming creator, while the two
cross-entity validations return ok for the detached entity. -/
theorem c10_source_props_not_deferred (o : TaskOutput) (hp : o.parent = none)
    (hs : o.source = DataSourceType.human) (hprops : o.source_properties = []) :
    o.validate_source_properties = Except.error (KilnError.missingKeysError ["creator"]) ∧
    o.runValidators ≠ Except.ok () ∧
    o.validate_output_format = Except.ok () ∧
    o.validate_requirement_rating_keys = Except.ok () := by
  have h1 : o.validate_source_properties =
      Except.error (KilnError.missingKeysError ["creator"]) := by
    simp [TaskOutput.validate_source_properties, hs, hprops, requiredKeysFor,
      collectMissingKeys, lookupStr]
  have h3 : o.validate_output_format = Except.ok () := by
    simp [TaskOutput.validate_output_format, TaskOutput.task_for_validation,
      TaskOutput.parent_task_run, hp]
  have h4 : o.validate_requirement_rating_keys = Except.ok () := by
    simp [TaskOutput.validate_requirement_rating_keys, TaskOutput.task_for_validation,
      TaskOutput.parent_task_run, hp]
    cases o.rating <;> simp
  refine ⟨h1, ?_, h3, h4⟩
  intro hok
  simp only [TaskOutput.runValidators, exSeq_ok_iff] at hok
  rw [h1] at hok
  exact Except.noConfusion hok.2.2.2

theorem c10_witness :
    c10Output.validate_source_properties =
        Except.error (KilnError.missingKeysError ["creator"]) ∧
    c10Output.runValidators ≠ Except.ok () ∧
    c10Output.validate_output_format = Except.ok () ∧
    c10Output.validate_requirement_rating_keys = Except.ok () :=
  c10_source_props_not_deferred c10Output rfl rfl rfl

end Kiln
